import Mathlib

/-!
Verification of the pi-track packet monitor core against its source.

The Go source is shallowly embedded: `Packet`, `Stats`, `PacketStore`
(`AddPacket`, `GetStats`, `GetPackets`), the decoder (`parsePacket`,
`detectApplication`), the IP-info cache (`resolveIPInfo`, `isPrivateIP`),
the persistence layer (`Flush`, `QueryPackets`) and the `/api/history`
handler's parameter parsing.  Go `int64`/`int` counters are modelled as
`Int` (no claim touches wrap-around), `time.Time` instants as `Int`
seconds, Go maps with `String`-indexed functions (hash maps; iteration
order is modelled by insertion order where the source iterates), and the
float64 rate fields as `Rat` (no claim tests float rounding).
-/

namespace PiTrack

/-- Packet record (struct `Packet` in the main file, plus the
`ProcessName` column used by the persistence layer). -/
structure Packet where
  id : Int
  timestamp : Int
  srcIP : String
  dstIP : String
  srcPort : Nat
  dstPort : Nat
  protocol : String
  length : Int
  info : String
  srcMAC : String
  dstMAC : String
  application : String
  srcHostname : String
  dstHostname : String
  srcCountry : String
  dstCountry : String
  processName : String
deriving Repr, DecidableEq

/-- Talker (struct `Talker`). -/
structure Talker where
  ip : String
  packets : Int
  bytes : Int
  hostname : String
  country : String
deriving Repr, DecidableEq

/-- Connection (struct `Connection`). -/
structure Connection where
  srcIP : String
  dstIP : String
  srcPort : Nat
  dstPort : Nat
  protocol : String
  packets : Int
  bytes : Int
  firstSeen : Int
  lastSeen : Int
  state : String
  srcHostname : String
  dstHostname : String
  srcCountry : String
  dstCountry : String
deriving Repr, DecidableEq

/-- Aggregate statistics (struct `Stats`). -/
structure Stats where
  totalPackets : Int
  totalBytes : Int
  packetsPerSec : Rat
  bytesPerSec : Rat
  protocolStats : String → Int
  countryStats : String → Int
  topTalkers : List Talker
  applicationStats : String → Int
  startTime : Int

/-- Per-IP traffic counters (struct `ipTraffic`). -/
structure IPTraffic where
  packets : Int
  bytes : Int
deriving Repr, DecidableEq

/-- The live store (struct `PacketStore`; the WebSocket client registry is
not modelled, no claim touches it). -/
structure PacketStore where
  packets : List Packet
  maxPackets : Nat
  packetID : Int
  stats : Stats
  ipStats : List (String × IPTraffic)
  connections : List (String × Connection)
  lastStatsUpdate : Int
  packetsWindow : List Int
  bytesWindow : List Int

/-- Bump a counter map at one key by `v` (Go `m[k] += v`). -/
def bump (m : String → Int) (k : String) (v : Int) : String → Int :=
  fun s => if s = k then m k + v else m s

/-- `NewPacketStore`. -/
def newPacketStore (maxPackets : Nat) (now : Int) : PacketStore :=
  { packets := []
    maxPackets := maxPackets
    packetID := 0
    stats :=
      { totalPackets := 0, totalBytes := 0, packetsPerSec := 0, bytesPerSec := 0
        protocolStats := fun _ => 0, countryStats := fun _ => 0
        topTalkers := [], applicationStats := fun _ => 0, startTime := now }
    ipStats := []
    connections := []
    lastStatsUpdate := now
    packetsWindow := []
    bytesWindow := [] }

/-- Update the `ipStats` map entry for `ip` (create-or-bump), keeping
insertion order for the other entries. -/
def ipStatsAdd : List (String × IPTraffic) → String → Int → List (String × IPTraffic)
  | [], ip, len => [(ip, ⟨1, len⟩)]
  | (k, t) :: rest, ip, len =>
    if k = ip then (k, ⟨t.packets + 1, t.bytes + len⟩) :: rest
    else (k, t) :: ipStatsAdd rest ip len

/-- Connection-table key (`fmt.Sprintf("%s:%d->%s:%d/%s", ...)`). -/
def connKey (p : Packet) : String :=
  p.srcIP ++ ":" ++ toString p.srcPort ++ "->" ++
    p.dstIP ++ ":" ++ toString p.dstPort ++ "/" ++ p.protocol

/-- Create-or-update the connection entry for packet `p`. -/
def connAdd : List (String × Connection) → Packet → List (String × Connection)
  | [], p =>
    [(connKey p,
      { srcIP := p.srcIP, dstIP := p.dstIP, srcPort := p.srcPort, dstPort := p.dstPort
        protocol := p.protocol, packets := 1, bytes := p.length
        firstSeen := p.timestamp, lastSeen := p.timestamp, state := "active"
        srcHostname := "", dstHostname := "", srcCountry := "", dstCountry := "" })]
  | (k, c) :: rest, p =>
    if k = connKey p then
      (k, { c with packets := c.packets + 1, bytes := c.bytes + p.length
                   lastSeen := p.timestamp }) :: rest
    else (k, c) :: connAdd rest p

/-- Drop leading window samples strictly before the cutoff (the
`for len > 0 && packetsWindow[0].Before(cutoff)` loop). -/
def trimWindows (cutoff : Int) : List Int → List Int → List Int × List Int
  | t :: pt, b :: bt =>
    if t < cutoff then trimWindows cutoff pt bt else (t :: pt, b :: bt)
  | pw, bw => (pw, bw)

/-- The final rate-recalculation step of `AddPacket`: when the trimmed
window is non-empty and spans a positive duration, recompute
packets-per-second and bytes-per-second. -/
def applyRates (stats : Stats) (now : Int) (wins : List Int × List Int) : Stats :=
  match wins.1 with
  | [] => stats
  | h :: _ =>
    let duration : Int := now - h
    if 0 < duration then
      { stats with
        packetsPerSec := (wins.1.length : Rat) / (duration : Rat)
        bytesPerSec := ((wins.2.foldl (· + ·) 0 : Int) : Rat) / (duration : Rat) }
    else stats

/-- `AddPacket`: assign the next id, append to the bounded ring (dropping
the front on overflow), update all aggregates, connections, and the
5-second rate windows.  `now` is the `time.Now()` read inside the call. -/
def addPacket (ps : PacketStore) (p0 : Packet) (now : Int) : PacketStore :=
  let pid := ps.packetID + 1
  let p := { p0 with id := pid }
  let packets :=
    (if ps.maxPackets ≤ ps.packets.length then ps.packets.drop 1 else ps.packets) ++ [p]
  let stats := ps.stats
  let stats := { stats with
    totalPackets := stats.totalPackets + 1
    totalBytes := stats.totalBytes + p.length
    protocolStats := bump stats.protocolStats p.protocol 1 }
  let stats := if p.application = "" then stats
    else { stats with applicationStats := bump stats.applicationStats p.application 1 }
  let stats := if p.srcCountry = "" then stats
    else { stats with countryStats := bump stats.countryStats p.srcCountry p.length }
  let stats := if p.dstCountry = "" then stats
    else { stats with countryStats := bump stats.countryStats p.dstCountry p.length }
  let ipStats := if p.srcIP = "" then ps.ipStats else ipStatsAdd ps.ipStats p.srcIP p.length
  let connections :=
    if 0 < p.srcPort ∨ 0 < p.dstPort then connAdd ps.connections p else ps.connections
  let pw := ps.packetsWindow ++ [now]
  let bw := ps.bytesWindow ++ [p.length]
  let wins := trimWindows (now - 5) pw bw
  { ps with
    packets := packets
    packetID := pid
    stats := applyRates stats now wins
    ipStats := ipStats
    connections := connections
    packetsWindow := wins.1
    bytesWindow := wins.2 }

/-- A sequence of `AddPacket` calls (each reading `now = 0`; no claim
under this fold depends on the clock). -/
def addSeq (ps : PacketStore) (l : List Packet) : PacketStore :=
  l.foldl (fun s p => addPacket s p 0) ps

/-- Cached info for one IP (struct `IPInfo`). -/
structure IPInfo where
  hostname : String
  country : String
deriving Repr, DecidableEq

/-- `getIPInfo`: cached entry or the empty record. -/
def getIPInfo (cache : String → Option IPInfo) (ip : String) : IPInfo :=
  (cache ip).getD ⟨"", ""⟩

/-- Ordered insertion for the byte-descending sorts of the source
(`sort.Slice(..., bytes[i] > bytes[j])`); `r x y` holds when `x` may come
before `y`. -/
def insertOrd {α : Type} (r : α → α → Bool) (x : α) : List α → List α
  | [] => [x]
  | y :: ys => if r x y then x :: y :: ys else y :: insertOrd r x ys

/-- Sort a list by the given before-relation. -/
def sortOrd {α : Type} (r : α → α → Bool) : List α → List α
  | [] => []
  | x :: xs => insertOrd r x (sortOrd r xs)

/-- `GetStats`: under the read lock, rebuild top talkers from `ipStats`
(enriching via the cache), sort by bytes descending, keep the top 10, and
overwrite the returned snapshot's `CountryStats` with the talker-derived
recomputation.  The store itself is returned unchanged (the function
assigns no `ps` field). -/
def getStats (ps : PacketStore) (cache : String → Option IPInfo) :
    PacketStore × Stats :=
  let step := fun (acc : (String → Int) × List Talker) (e : String × IPTraffic) =>
    let info := getIPInfo cache e.1
    let cs := if info.country = "" then acc.1 else bump acc.1 info.country e.2.bytes
    (cs, acc.2 ++
      [{ ip := e.1, packets := e.2.packets, bytes := e.2.bytes
         hostname := info.hostname, country := info.country }])
  let z := ps.ipStats.foldl step (fun _ => 0, [])
  let talkers := (sortOrd (fun a b => decide (b.bytes ≤ a.bytes)) z.2).take 10
  (ps, { ps.stats with topTalkers := talkers, countryStats := z.1 })

/-- `GetPackets`: the last `limit` ring entries; a non-positive or
too-large limit returns the whole ring. -/
def getPackets (ps : PacketStore) (limit : Int) : List Packet :=
  let n := ps.packets.length
  let lim : Nat := if limit ≤ 0 ∨ (n : Int) < limit then n else limit.toNat
  ps.packets.drop (n - lim)

/-- The well-known port table inside `detectApplication`. -/
def portTable (port : Nat) : Option String :=
  if port = 20 then some "FTP-Data"
  else if port = 21 then some "FTP"
  else if port = 22 then some "SSH"
  else if port = 23 then some "Telnet"
  else if port = 25 then some "SMTP"
  else if port = 53 then some "DNS"
  else if port = 67 then some "DHCP"
  else if port = 68 then some "DHCP"
  else if port = 80 then some "HTTP"
  else if port = 110 then some "POP3"
  else if port = 123 then some "NTP"
  else if port = 143 then some "IMAP"
  else if port = 443 then some "HTTPS"
  else if port = 465 then some "SMTPS"
  else if port = 587 then some "SMTP"
  else if port = 993 then some "IMAPS"
  else if port = 995 then some "POP3S"
  else if port = 1194 then some "OpenVPN"
  else if port = 1883 then some "MQTT"
  else if port = 3306 then some "MySQL"
  else if port = 3389 then some "RDP"
  else if port = 5432 then some "PostgreSQL"
  else if port = 5900 then some "VNC"
  else if port = 6379 then some "Redis"
  else if port = 8080 then some "HTTP-Proxy"
  else if port = 8443 then some "HTTPS-Alt"
  else if port = 8883 then some "MQTT-TLS"
  else if port = 27017 then some "MongoDB"
  else none

/-- `detectApplication`: the destination port is looked up first, then the
source port (this is the order in the source). -/
def detectApplication (srcPort dstPort : Nat) : String :=
  match portTable dstPort with
  | some app => app
  | none =>
    match portTable srcPort with
    | some app => app
    | none => ""

/-- Ethernet layer of a captured frame (src/dst MAC as text). -/
structure EthLayer where
  srcMAC : String
  dstMAC : String
deriving Repr, DecidableEq

/-- IPv4 layer: textual addresses and `ip.Protocol.String()`. -/
structure IPv4Layer where
  srcIP : String
  dstIP : String
  protocolName : String
deriving Repr, DecidableEq

/-- IPv6 layer: textual addresses and `ip6.NextHeader.String()`. -/
structure IPv6Layer where
  srcIP : String
  dstIP : String
  nextHeaderName : String
deriving Repr, DecidableEq

/-- TCP layer: ports, the five inspected flags, seq/ack/window. -/
structure TCPLayer where
  srcPort : Nat
  dstPort : Nat
  syn : Bool
  ackFlag : Bool
  fin : Bool
  rst : Bool
  psh : Bool
  seq : Nat
  ackNum : Nat
  window : Nat
deriving Repr, DecidableEq

/-- UDP layer: ports and the UDP length field. -/
structure UDPLayer where
  srcPort : Nat
  dstPort : Nat
  len : Nat
deriving Repr, DecidableEq

/-- ICMPv4 layer: type and code. -/
structure ICMPLayer where
  typeV : Nat
  codeV : Nat
deriving Repr, DecidableEq

/-- ARP layer: operation and the textualized protocol/hardware addresses. -/
structure ARPLayer where
  op : Nat
  srcProtAddr : String
  dstProtAddr : String
  srcHwAddr : String
deriving Repr, DecidableEq

/-- DNS layer: response flag, answer count, question names. -/
structure DNSLayer where
  qr : Bool
  answers : Nat
  questions : List String
deriving Repr, DecidableEq

/-- One captured frame as `gopacket` hands it to `parsePacket`: capture
metadata plus each decodable layer (present or not). -/
structure Frame where
  timestamp : Int
  length : Int
  eth : Option EthLayer
  ipv4 : Option IPv4Layer
  ipv6 : Option IPv6Layer
  tcp : Option TCPLayer
  udp : Option UDPLayer
  icmp : Option ICMPLayer
  arp : Option ARPLayer
  dns : Option DNSLayer
deriving Repr, DecidableEq

/-- The record `parsePacket` starts from: protocol defaults to
"Unknown". -/
def initPacket (f : Frame) : Packet :=
  { id := 0, timestamp := f.timestamp, srcIP := "", dstIP := "", srcPort := 0
    dstPort := 0, protocol := "Unknown", length := f.length, info := ""
    srcMAC := "", dstMAC := "", application := "", srcHostname := ""
    dstHostname := "", srcCountry := "", dstCountry := "", processName := "" }

/-- Ethernet stage of `parsePacket`. -/
def applyEthernet (f : Frame) (p : Packet) : Packet :=
  match f.eth with
  | some e => { p with srcMAC := e.srcMAC, dstMAC := e.dstMAC }
  | none => p

/-- IP stage of `parsePacket` (IPv4 checked first, else IPv6). -/
def applyIP (f : Frame) (p : Packet) : Packet :=
  match f.ipv4 with
  | some ip => { p with srcIP := ip.srcIP, dstIP := ip.dstIP, protocol := ip.protocolName }
  | none =>
    match f.ipv6 with
    | some ip6 =>
      { p with srcIP := ip6.srcIP, dstIP := ip6.dstIP, protocol := ip6.nextHeaderName }
    | none => p

/-- TCP stage of `parsePacket`. -/
def applyTCP (f : Frame) (p : Packet) : Packet :=
  match f.tcp with
  | some t =>
    let flags :=
      (if t.syn then "SYN " else "") ++ (if t.ackFlag then "ACK " else "") ++
      (if t.fin then "FIN " else "") ++ (if t.rst then "RST " else "") ++
      (if t.psh then "PSH " else "")
    { p with srcPort := t.srcPort, dstPort := t.dstPort, protocol := "TCP"
             info := toString t.srcPort ++ " → " ++ toString t.dstPort ++ " [" ++
               flags ++ "] Seq=" ++ toString t.seq ++ " Ack=" ++ toString t.ackNum ++
               " Win=" ++ toString t.window }
  | none => p

/-- UDP stage of `parsePacket`. -/
def applyUDP (f : Frame) (p : Packet) : Packet :=
  match f.udp with
  | some u =>
    { p with srcPort := u.srcPort, dstPort := u.dstPort, protocol := "UDP"
             info := toString u.srcPort ++ " → " ++ toString u.dstPort ++
               " Len=" ++ toString u.len }
  | none => p

/-- ICMP stage of `parsePacket`. -/
def applyICMP (f : Frame) (p : Packet) : Packet :=
  match f.icmp with
  | some i =>
    { p with protocol := "ICMP"
             info := "Type=" ++ toString i.typeV ++ " Code=" ++ toString i.codeV }
  | none => p

/-- ARP stage of `parsePacket`. -/
def applyARP (f : Frame) (p : Packet) : Packet :=
  match f.arp with
  | some a =>
    let p := { p with protocol := "ARP", srcIP := a.srcProtAddr, dstIP := a.dstProtAddr }
    if a.op = 1 then
      { p with info := "Who has " ++ p.dstIP ++ "? Tell " ++ p.srcIP }
    else
      { p with info := p.srcIP ++ " is at " ++ a.srcHwAddr }
  | none => p

/-- DNS stage of `parsePacket`. -/
def applyDNS (f : Frame) (p : Packet) : Packet :=
  match f.dns with
  | some d =>
    let p := { p with application := "DNS" }
    if d.qr then { p with info := "DNS Response: " ++ toString d.answers ++ " answers" }
    else
      match d.questions with
      | q :: _ => { p with info := "DNS Query: " ++ q }
      | [] => p
  | none => p

/-- Port-based application detection stage (`if p.Application == ""`). -/
def applyAppDetect (p : Packet) : Packet :=
  if p.application = "" then
    { p with application := detectApplication p.srcPort p.dstPort }
  else p

/-- Enrichment stage for the source endpoint: copy cached hostname and
country when the cache already has something for the IP (otherwise an
asynchronous resolution is fired and the fields stay empty). -/
def enrichSrc (cache : String → Option IPInfo) (p : Packet) : Packet :=
  if p.srcIP = "" then p
  else
    let info := getIPInfo cache p.srcIP
    if info.hostname = "" ∧ info.country = "" then p
    else { p with srcHostname := info.hostname, srcCountry := info.country }

/-- Enrichment stage for the destination endpoint. -/
def enrichDst (cache : String → Option IPInfo) (p : Packet) : Packet :=
  if p.dstIP = "" then p
  else
    let info := getIPInfo cache p.dstIP
    if info.hostname = "" ∧ info.country = "" then p
    else { p with dstHostname := info.hostname, dstCountry := info.country }

/-- The decoder's protocol-specific stages, in source order, before the
port-based application lookup. -/
def preDetect (f : Frame) : Packet :=
  applyDNS f (applyARP f (applyICMP f (applyUDP f (applyTCP f (applyIP f
    (applyEthernet f (initPacket f)))))))

/-- `parsePacket`: all decoding stages in source order. -/
def parsePacket (cache : String → Option IPInfo) (f : Frame) : Packet :=
  enrichDst cache (enrichSrc cache (applyAppDetect (preDetect f)))

/-- A parsed IP address as `net.ParseIP` yields it: dotted-quad IPv4 or a
16-byte IPv6 address. -/
inductive IPAddr where
  | v4 (a b c d : Nat)
  | v6 (bytes : List Nat)
deriving Repr, DecidableEq

/-- `ip.IsLoopback()`. -/
def ipIsLoopback : IPAddr → Bool
  | .v4 a _ _ _ => a == 127
  | .v6 bs => bs == [0, 0, 0, 0, 0, 0, 0, 0, 0, 0, 0, 0, 0, 0, 0, 1]

/-- `ip.IsLinkLocalUnicast()` (169.254/16 or fe80::/10). -/
def ipIsLinkLocalUnicast : IPAddr → Bool
  | .v4 a b _ _ => a == 169 && b == 254
  | .v6 bs => bs.getD 0 0 == 0xfe && (bs.getD 1 0 &&& 0xc0) == 0x80

/-- `ip.IsLinkLocalMulticast()` (224.0.0/24 or ff02::/16). -/
def ipIsLinkLocalMulticast : IPAddr → Bool
  | .v4 a b c _ => a == 224 && b == 0 && c == 0
  | .v6 bs => bs.getD 0 0 == 0xff && bs.getD 1 0 == 0x02

/-- Membership in 10.0.0.0/8. -/
def inRange10 : IPAddr → Bool
  | .v4 a _ _ _ => a == 10
  | .v6 _ => false

/-- Membership in 172.16.0.0/12. -/
def inRange172 : IPAddr → Bool
  | .v4 a b _ _ => a == 172 && (b &&& 0xf0) == 16
  | .v6 _ => false

/-- Membership in 192.168.0.0/16. -/
def inRange192 : IPAddr → Bool
  | .v4 a b _ _ => a == 192 && b == 168
  | .v6 _ => false

/-- Membership in fc00::/7. -/
def inRangeFC : IPAddr → Bool
  | .v4 _ _ _ _ => false
  | .v6 bs => (bs.getD 0 0 &&& 0xfe) == 0xfc

/-- Membership in fe80::/10. -/
def inRangeFE80 : IPAddr → Bool
  | .v4 _ _ _ _ => false
  | .v6 bs => bs.getD 0 0 == 0xfe && (bs.getD 1 0 &&& 0xc0) == 0x80

/-- `isPrivateIP`: the loopback/link-local built-ins, then the five CIDR
ranges of the source, in order. -/
def isPrivateIP (ip : IPAddr) : Bool :=
  ipIsLoopback ip || ipIsLinkLocalUnicast ip || ipIsLinkLocalMulticast ip ||
  inRange10 ip || inRange172 ip || inRange192 ip || inRangeFC ip || inRangeFE80 ip

/-- The address ranges the specification lists as private/loopback/
link-local: 10/8, 172.16/12, 192.168/16, 127/8, fe80::/10, fc00::/7. -/
def claimPrivateRanges : IPAddr → Bool
  | .v4 a b _ _ =>
    a == 10 || (a == 172 && (b &&& 0xf0) == 16) || (a == 192 && b == 168) || a == 127
  | .v6 bs =>
    (bs.getD 0 0 == 0xfe && (bs.getD 1 0 &&& 0xc0) == 0x80) ||
    (bs.getD 0 0 &&& 0xfe) == 0xfc

/-- Insert (or overwrite) a cache entry (`ipInfoCache.Store`). -/
def cacheStore (cache : String → Option IPInfo) (ip : String) (info : IPInfo) :
    String → Option IPInfo :=
  fun s => if s = ip then some info else cache s

/-- Outcome of one `resolveIPInfo` call: the updated cache, the returned
record, and whether the reverse-DNS and GeoIP background tasks were
launched. -/
structure ResolveResult where
  cache : String → Option IPInfo
  ret : IPInfo
  dnsLaunched : Bool
  geoLaunched : Bool

/-- `resolveIPInfo`: cached entries are returned as-is; an unparseable IP
stores an empty record; the reverse-DNS task is fired before the private
check; a private/loopback/link-local IP stores `{hostname:"",
country:"Local"}` and returns without launching the GeoIP task.  `parsed`
stands for `net.ParseIP(ip)`. -/
def resolveIPInfo (cache : String → Option IPInfo) (ip : String)
    (parsed : Option IPAddr) : ResolveResult :=
  match cache ip with
  | some info => ⟨cache, info, false, false⟩
  | none =>
    match parsed with
    | none => ⟨cacheStore cache ip ⟨"", ""⟩, ⟨"", ""⟩, false, false⟩
    | some a =>
      if isPrivateIP a then
        ⟨cacheStore cache ip ⟨"", "Local"⟩, ⟨"", "Local"⟩, true, false⟩
      else
        ⟨cacheStore cache ip ⟨"", ""⟩, ⟨"", ""⟩, true, true⟩

/-- Persistence state visible to `Flush`: the in-memory batch and the
committed `packets` rows. -/
structure DBState where
  batchQueue : List Packet
  rows : List Packet
deriving Repr, DecidableEq

/-- Failure injection for one `Flush` run: whether `Begin` fails, which
per-packet `Exec` calls fail (by batch index), and whether `Commit`
fails. -/
structure FlushOracle where
  beginErr : Bool
  insertErr : Nat → Bool
  commitErr : Bool

/-- The packets of a batch that survive their individual INSERT. -/
def flushInserted (o : FlushOracle) (packets : List Packet) : List Packet :=
  packets.enum.filterMap fun e => if o.insertErr e.1 then none else some e.2

/-- `Flush`: drain the batch under the lock; on `Begin` failure the batch
is already lost; failed single inserts are skipped while the rest of the
batch proceeds; a failed `Commit` rolls the transaction back (the whole
batch is lost).  No case propagates an error (the Go function returns
nothing), and the drained batch is never re-queued. -/
def flush (s : DBState) (o : FlushOracle) : DBState :=
  if s.batchQueue = [] then s
  else
    let packets := s.batchQueue
    let s1 : DBState := { s with batchQueue := [] }
    if o.beginErr then s1
    else if o.commitErr then s1
    else { s1 with rows := s1.rows ++ flushInserted o packets }

/-- Case-insensitive substring test on character lists, needle against a
hay prefix. -/
def chrsMatchHere : List Char → List Char → Bool
  | [], _ => true
  | _ :: _, [] => false
  | a :: as, b :: bs => a == b && chrsMatchHere as bs

/-- Substring search on character lists. -/
def chrsContain (needle : List Char) : List Char → Bool
  | [] => chrsMatchHere needle []
  | b :: bs => chrsMatchHere needle (b :: bs) || chrsContain needle bs

/-- SQL `column LIKE '%text%'` with SQLite's ASCII case folding. -/
def likeContains (hay needle : String) : Bool :=
  chrsContain needle.toLower.data hay.toLower.data

/-- One conjunct of the WHERE clause `QueryPackets` builds. -/
inductive Cond where
  | tsGE (t : Int)
  | tsLE (t : Int)
  | textLike (s : String)
  | countryEq (c : String)
  | excludeIP (ip : String)
deriving Repr, DecidableEq

/-- Row semantics of one WHERE conjunct. -/
def condMatches (p : Packet) : Cond → Bool
  | .tsGE t => decide (t ≤ p.timestamp)
  | .tsLE t => decide (p.timestamp ≤ t)
  | .textLike s =>
    likeContains p.srcIP s || likeContains p.dstIP s || likeContains p.protocol s ||
    likeContains p.application s || likeContains p.srcHostname s ||
    likeContains p.dstHostname s || likeContains p.info s
  | .countryEq c => p.srcCountry == c || p.dstCountry == c
  | .excludeIP ip => p.srcIP != ip && p.dstIP != ip

/-- The WHERE conjuncts in the order `QueryPackets` appends them: time
range, text filter, country, then one exclusion per non-blank IP. -/
def buildConds (filter country : String) (excludeIPs : List String)
    (startT endT : Option Int) : List Cond :=
  (match startT with | some t => [Cond.tsGE t] | none => []) ++
  (match endT with | some t => [Cond.tsLE t] | none => []) ++
  (if filter = "" then [] else [Cond.textLike filter]) ++
  (if country = "" then [] else [Cond.countryEq country]) ++
  (excludeIPs.filterMap fun ip =>
    let ip := ip.trim
    if ip = "" then none else some (Cond.excludeIP ip))

/-- A row matches when every WHERE conjunct holds. -/
def rowMatches (conds : List Cond) (p : Packet) : Bool :=
  conds.all (condMatches p)

/-- The rows matching the WHERE clause of one `QueryPackets` call. -/
def matchingRows (db : List Packet) (filter country : String)
    (excludeIPs : List String) (startT endT : Option Int) : List Packet :=
  db.filter (rowMatches (buildConds filter country excludeIPs startT endT))

/-- `ORDER BY timestamp DESC` over the stored rows. -/
def sortTsDesc (rows : List Packet) : List Packet :=
  sortOrd (fun a b => decide (b.timestamp ≤ a.timestamp)) rows

/-- `QueryPackets`: the COUNT runs with the same WHERE arguments and no
limit/offset; the row query appends `ORDER BY timestamp DESC LIMIT ?
OFFSET ?`. -/
def queryPackets (db : List Packet) (limit offset : Nat) (filter country : String)
    (excludeIPs : List String) (startT endT : Option Int) : List Packet × Nat :=
  let m := matchingRows db filter country excludeIPs startT endT
  let total := m.length
  (((sortTsDesc m).drop offset).take limit, total)

/-- The `/api/history` handler's limit parameter: default 100 when absent
or unparsed, parsed values above 1000 clamped to 1000. -/
def historyLimitParam (q : Option Int) : Int :=
  match q with
  | none => 100
  | some v => if 1000 < v then 1000 else v

/-- The `/api/history` handler's offset parameter: default 0. -/
def historyOffsetParam (q : Option Int) : Int :=
  match q with
  | none => 0
  | some v => v

/-- The packets of a call sequence as the ring stores them: each stamped
with the id `AddPacket` assigns, counting up from `base`. -/
def stampIDs : List Packet → Int → List Packet
  | [], _ => []
  | p :: t, base => { p with id := base + 1 } :: stampIDs t (base + 1)

/-- The ids `base+1, base+2, …, base+n`. -/
def idRange (base : Int) (n : Nat) : List Int :=
  (List.range n).map (fun i : Nat => base + (i : Int) + 1)

/-- The id the `i`-th call of an add sequence assigns (the value of
`packetID` right after that call, 0-indexed). -/
def assignedId (s0 : PacketStore) (l : List Packet) (i : Nat) : Int :=
  (addSeq s0 (l.take (i + 1))).packetID

/-- A neutral packet fixture. -/
def dummyPacket : Packet :=
  { id := 0, timestamp := 0, srcIP := "", dstIP := "", srcPort := 0, dstPort := 0
    protocol := "Unknown", length := 0, info := "", srcMAC := "", dstMAC := ""
    application := "", srcHostname := "", dstHostname := "", srcCountry := ""
    dstCountry := "", processName := "" }

/-- One decoded loopback-ping frame record: ICMPv4, 84 bytes,
src = dst = 127.0.0.1, both countries already resolved to "Local". -/
def pingPacket : Packet :=
  { id := 0, timestamp := 0, srcIP := "127.0.0.1", dstIP := "127.0.0.1"
    srcPort := 0, dstPort := 0, protocol := "ICMP", length := 84
    info := "Type=8 Code=0", srcMAC := "", dstMAC := "", application := ""
    srcHostname := "", dstHostname := "", srcCountry := "Local"
    dstCountry := "Local", processName := "" }

/-- The store after the five loopback pings of the end-to-end scenario. -/
def pingStore : PacketStore :=
  addSeq (newPacketStore 10000 0) (List.replicate 5 pingPacket)

/-- IP-info cache with loopback resolved to the "Local" sentinel. -/
def pingCache : String → Option IPInfo :=
  fun ip => if ip = "127.0.0.1" then some ⟨"", "Local"⟩ else none

/-- An empty IP-info cache. -/
def emptyCache : String → Option IPInfo := fun _ => none

/-- A TCP frame whose source port (80) and destination port (443) are
both in the well-known port table. -/
def bothPortsFrame : Frame :=
  { timestamp := 0, length := 60, eth := none
    ipv4 := some { srcIP := "10.0.0.2", dstIP := "10.0.0.3", protocolName := "TCP" }
    ipv6 := none
    tcp := some { srcPort := 80, dstPort := 443, syn := true, ackFlag := false
                  fin := false, rst := false, psh := false, seq := 1000
                  ackNum := 0, window := 65535 }
    udp := none, icmp := none, arp := none, dns := none }

/-- A frame with no decodable layer at all. -/
def bareFrame : Frame :=
  { timestamp := 0, length := 42, eth := none, ipv4 := none, ipv6 := none
    tcp := none, udp := none, icmp := none, arp := none, dns := none }

/-- A packet whose protocol string is empty, fed directly to the store. -/
def emptyProtoPacket : Packet :=
  { dummyPacket with protocol := "", length := 10 }

/-- A two-packet persistence batch awaiting flush. -/
def flushState0 : DBState := ⟨[pingPacket, dummyPacket], []⟩

/-- A flush run in which only the first INSERT of the batch fails. -/
def flushOracle0 : FlushOracle := ⟨false, fun i => i == 0, false⟩

theorem applyRates_totalPackets (st : Stats) (now : Int) (w : List Int × List Int) :
    (applyRates st now w).totalPackets = st.totalPackets := by
  rcases w with ⟨pw, bw⟩
  cases pw with
  | nil => rfl
  | cons h t => dsimp only [applyRates]; split <;> rfl

theorem applyRates_totalBytes (st : Stats) (now : Int) (w : List Int × List Int) :
    (applyRates st now w).totalBytes = st.totalBytes := by
  rcases w with ⟨pw, bw⟩
  cases pw with
  | nil => rfl
  | cons h t => dsimp only [applyRates]; split <;> rfl

theorem applyRates_protocolStats (st : Stats) (now : Int) (w : List Int × List Int) :
    (applyRates st now w).protocolStats = st.protocolStats := by
  rcases w with ⟨pw, bw⟩
  cases pw with
  | nil => rfl
  | cons h t => dsimp only [applyRates]; split <;> rfl

theorem addPacket_packetID (ps : PacketStore) (p : Packet) (now : Int) :
    (addPacket ps p now).packetID = ps.packetID + 1 := rfl

theorem addPacket_maxPackets (ps : PacketStore) (p : Packet) (now : Int) :
    (addPacket ps p now).maxPackets = ps.maxPackets := rfl

theorem addPacket_packets (ps : PacketStore) (p : Packet) (now : Int) :
    (addPacket ps p now).packets =
      (if ps.maxPackets ≤ ps.packets.length then ps.packets.drop 1 else ps.packets) ++
        [{ p with id := ps.packetID + 1 }] := rfl

theorem addPacket_totalPackets (ps : PacketStore) (p : Packet) (now : Int) :
    (addPacket ps p now).stats.totalPackets = ps.stats.totalPackets + 1 := by
  unfold addPacket
  dsimp only
  rw [applyRates_totalPackets]
  split_ifs <;> rfl

theorem addPacket_totalBytes (ps : PacketStore) (p : Packet) (now : Int) :
    (addPacket ps p now).stats.totalBytes = ps.stats.totalBytes + p.length := by
  unfold addPacket
  dsimp only
  rw [applyRates_totalBytes]
  split_ifs <;> rfl

theorem addPacket_protocolStats (ps : PacketStore) (p : Packet) (now : Int) :
    (addPacket ps p now).stats.protocolStats =
      bump ps.stats.protocolStats p.protocol 1 := by
  unfold addPacket
  dsimp only
  rw [applyRates_protocolStats]
  split_ifs <;> rfl

theorem addPacket_protocolStats_self (ps : PacketStore) (p : Packet) (now : Int) :
    (addPacket ps p now).stats.protocolStats p.protocol =
      ps.stats.protocolStats p.protocol + 1 := by
  rw [addPacket_protocolStats]; simp [bump]

theorem addSeq_nil (s : PacketStore) : addSeq s [] = s := rfl

theorem addSeq_cons (s : PacketStore) (p : Packet) (t : List Packet) :
    addSeq s (p :: t) = addSeq (addPacket s p 0) t := rfl

theorem addSeq_packetID (l : List Packet) : ∀ s : PacketStore,
    (addSeq s l).packetID = s.packetID + l.length := by
  induction l with
  | nil => intro s; simp [addSeq_nil]
  | cons p t ih =>
    intro s
    rw [addSeq_cons, ih, addPacket_packetID]
    simp only [List.length_cons]
    push_cast
    ring

theorem addSeq_maxPackets (l : List Packet) : ∀ s : PacketStore,
    (addSeq s l).maxPackets = s.maxPackets := by
  induction l with
  | nil => intro s; rfl
  | cons p t ih => intro s; rw [addSeq_cons, ih, addPacket_maxPackets]

theorem addSeq_totalBytes (l : List Packet) : ∀ s : PacketStore,
    (addSeq s l).stats.totalBytes = s.stats.totalBytes + (l.map (·.length)).sum := by
  induction l with
  | nil => intro s; simp [addSeq_nil]
  | cons p t ih =>
    intro s
    rw [addSeq_cons, ih, addPacket_totalBytes]
    simp
    ring

/-- C5: each `AddPacket` call increments `totalPackets` by exactly one
and `totalBytes` by exactly the packet's length; consequently, starting
from a fresh store (with a positive ring capacity, as the flag enforces),
`totalBytes` after any sequence of adds is the sum of the added lengths. -/
theorem C5_addPacket_counters :
    ∀ (s : PacketStore) (p : Packet) (now : Int),
    ((addPacket s p now).stats.totalPackets = s.stats.totalPackets + 1 ∧
     (addPacket s p now).stats.totalBytes = s.stats.totalBytes + p.length) ∧
    ∀ (max : Nat) (t0 : Int) (l : List Packet), 0 < max →
      (addSeq (newPacketStore max t0) l).stats.totalBytes = (l.map (·.length)).sum := by
  intro s p now
  refine ⟨⟨addPacket_totalPackets s p now, addPacket_totalBytes s p now⟩, ?_⟩
  intro max t0 l _
  rw [addSeq_totalBytes]
  simp [newPacketStore]

theorem C5_addPacket_counters_witness :
    (0 < 3) ∧
    (addSeq (newPacketStore 3 0) [pingPacket, pingPacket]).stats.totalBytes =
      (([pingPacket, pingPacket]).map (·.length)).sum :=
  ⟨by decide,
   (C5_addPacket_counters (newPacketStore 3 0) pingPacket 0).2 3 0
     [pingPacket, pingPacket] (by decide)⟩

/-- C4: the `i`-th `AddPacket` call of any sequence on a fresh store
assigns id `i + 1` (ids count up from 1), so ids are unique and strictly
increasing in call order. -/
theorem C4_ids_strictly_increasing (max : Nat) (t0 : Int) (l : List Packet)
    (i j : Nat) (_hmax : 0 < max) (hij : i < j) (hj : j < l.length) :
    assignedId (newPacketStore max t0) l i = (i : Int) + 1 ∧
    assignedId (newPacketStore max t0) l i < assignedId (newPacketStore max t0) l j := by
  have hi : i < l.length := lt_trans hij hj
  have htake : ∀ k : Nat, k < l.length →
      assignedId (newPacketStore max t0) l k = (k : Int) + 1 := by
    intro k hk
    unfold assignedId
    rw [addSeq_packetID]
    have hlen : (l.take (k + 1)).length = k + 1 := by
      rw [List.length_take]
      omega
    rw [hlen]
    simp [newPacketStore]
  refine ⟨htake i hi, ?_⟩
  rw [htake i hi, htake j hj]
  omega

theorem C4_ids_strictly_increasing_witness :
    (0 < 3 ∧ 0 < 1 ∧ 1 < 2) ∧
    assignedId (newPacketStore 3 0) [dummyPacket, pingPacket] 0 <
      assignedId (newPacketStore 3 0) [dummyPacket, pingPacket] 1 :=
  ⟨⟨by decide, by decide, by decide⟩,
   (C4_ids_strictly_increasing 3 0 [dummyPacket, pingPacket] 0 1 (by decide)
     (by decide) (by decide)).2⟩

/-- C10: `GetStats` is read-only on the store: every stored field —
counters, the live `countryStats`, per-protocol and per-application maps,
`ipStats`, the connection table, the packet ring and the rate windows —
is unchanged; the talker-derived `countryStats` recomputation exists only
in the returned snapshot. -/
theorem C10_getStats_readonly :
    ∀ (ps : PacketStore) (cache : String → Option IPInfo),
    (getStats ps cache).1.packets = ps.packets ∧
    (getStats ps cache).1.maxPackets = ps.maxPackets ∧
    (getStats ps cache).1.packetID = ps.packetID ∧
    (getStats ps cache).1.stats.totalPackets = ps.stats.totalPackets ∧
    (getStats ps cache).1.stats.totalBytes = ps.stats.totalBytes ∧
    (getStats ps cache).1.stats.protocolStats = ps.stats.protocolStats ∧
    (getStats ps cache).1.stats.applicationStats = ps.stats.applicationStats ∧
    (getStats ps cache).1.stats.countryStats = ps.stats.countryStats ∧
    (getStats ps cache).1.ipStats = ps.ipStats ∧
    (getStats ps cache).1.connections = ps.connections ∧
    (getStats ps cache).1.packetsWindow = ps.packetsWindow ∧
    (getStats ps cache).1.bytesWindow = ps.bytesWindow ∧
    (getStats ps cache).1 = ps := by
  intro ps cache
  exact ⟨rfl, rfl, rfl, rfl, rfl, rfl, rfl, rfl, rfl, rfl, rfl, rfl, rfl⟩

theorem stampIDs_length (l : List Packet) : ∀ b : Int, (stampIDs l b).length = l.length := by
  induction l with
  | nil => intro b; rfl
  | cons p t ih => intro b; simp [stampIDs, ih]

theorem idRange_succ (b : Int) (n : Nat) :
    idRange b (n + 1) = (b + 1) :: idRange (b + 1) n := by
  unfold idRange
  rw [List.range_succ_eq_map, List.map_cons, List.map_map]
  have h : ((fun i : Nat => b + (i : Int) + 1) ∘ Nat.succ) =
      fun i : Nat => b + 1 + (i : Int) + 1 := by
    funext i
    simp only [Function.comp_apply]
    push_cast
    ring
  rw [h]
  congr 1
  push_cast
  ring

theorem idRange_drop : ∀ (m n : Nat) (b : Int),
    (idRange b n).drop m = idRange (b + m) (n - m) := by
  intro m
  induction m with
  | zero => intro n b; simp [idRange]
  | succ k ih =>
    intro n b
    cases n with
    | zero => simp [idRange]
    | succ n' =>
      rw [idRange_succ, List.drop_succ_cons, ih n' (b + 1)]
      congr 1
      · push_cast; ring
      · omega

theorem stampIDs_map_id (l : List Packet) : ∀ b : Int,
    (stampIDs l b).map (·.id) = idRange b l.length := by
  induction l with
  | nil => intro b; simp [stampIDs, idRange]
  | cons p t ih =>
    intro b
    rw [show stampIDs (p :: t) b = { p with id := b + 1 } :: stampIDs t (b + 1) from rfl]
    rw [List.map_cons, ih, List.length_cons, idRange_succ]

theorem drop_one_shift {α : Type} (a x : List α) (k : Nat) (ha : 1 ≤ a.length) :
    (a.drop 1 ++ x).drop k = (a ++ x).drop (k + 1) := by
  rw [← List.drop_append_of_le_length ha, List.drop_drop]
  congr 1
  omega

theorem addSeq_ring : ∀ (l : List Packet) (s : PacketStore),
    0 < s.maxPackets → s.packets.length ≤ s.maxPackets →
    (addSeq s l).packets =
      (s.packets ++ stampIDs l s.packetID).drop
        (s.packets.length + l.length - s.maxPackets) := by
  intro l
  induction l with
  | nil =>
    intro s _ h2
    simp [addSeq_nil, stampIDs, Nat.sub_eq_zero_of_le h2]
  | cons p t ih =>
    intro s h1 h2
    rw [addSeq_cons]
    by_cases hc : s.maxPackets ≤ s.packets.length
    · have hlen : s.packets.length = s.maxPackets := le_antisymm h2 hc
      have hplen : (addPacket s p 0).packets.length = s.maxPackets := by
        rw [addPacket_packets, if_pos hc]
        rw [List.length_append, List.length_drop]
        simp
        omega
      have hres := ih (addPacket s p 0) (by rw [addPacket_maxPackets]; exact h1)
        (le_of_eq (by rw [hplen, addPacket_maxPackets]))
      rw [hres, addPacket_maxPackets, addPacket_packetID, hplen, addPacket_packets,
        if_pos hc]
      have e1 : s.maxPackets + t.length - s.maxPackets = t.length := by omega
      have e2 : s.packets.length + (p :: t).length - s.maxPackets = t.length + 1 := by
        simp only [List.length_cons]
        omega
      rw [e1, e2, List.append_assoc]
      exact drop_one_shift s.packets _ t.length (by omega)
    · have hlt : s.packets.length < s.maxPackets := lt_of_not_ge hc
      have hplen : (addPacket s p 0).packets.length = s.packets.length + 1 := by
        rw [addPacket_packets, if_neg hc]
        simp
      have hres := ih (addPacket s p 0) (by rw [addPacket_maxPackets]; exact h1)
        (by rw [hplen, addPacket_maxPackets]; omega)
      rw [hres, addPacket_maxPackets, addPacket_packetID, hplen, addPacket_packets,
        if_neg hc]
      have e3 : s.packets.length + 1 + t.length - s.maxPackets =
          s.packets.length + (p :: t).length - s.maxPackets := by
        simp only [List.length_cons]
        omega
      rw [e3, List.append_assoc]
      rfl

theorem getPackets_unrestricted (ps : PacketStore) (lim : Int)
    (h : lim ≤ 0 ∨ (ps.packets.length : Int) < lim) :
    getPackets ps lim = ps.packets := by
  unfold getPackets
  dsimp only
  rw [if_pos h, Nat.sub_self, List.drop_zero]

/-- C3: after `K` adds on a fresh store with `K > maxPackets`, the ring
holds exactly `maxPackets` packets, their ids are
`K − maxPackets + 1 … K` in order (the oldest entry is dropped on each
overflow), and `GetPackets` with an unrestricted limit returns exactly
these entries. -/
theorem C3_ring_retention (max : Nat) (t0 : Int) (l : List Packet)
    (hmax : 0 < max) (hK : max < l.length) :
    (addSeq (newPacketStore max t0) l).packets.length = max ∧
    (addSeq (newPacketStore max t0) l).packets.map (·.id) =
      idRange ((l.length - max : Nat) : Int) max ∧
    ∀ lim : Int,
      (lim ≤ 0 ∨ ((addSeq (newPacketStore max t0) l).packets.length : Int) < lim) →
      getPackets (addSeq (newPacketStore max t0) l) lim =
        (addSeq (newPacketStore max t0) l).packets := by
  have hring := addSeq_ring l (newPacketStore max t0) hmax (by simp [newPacketStore])
  have hring' : (addSeq (newPacketStore max t0) l).packets =
      (stampIDs l 0).drop (l.length - max) := by
    rw [hring]
    simp [newPacketStore]
  refine ⟨?_, ?_, ?_⟩
  · rw [hring', List.length_drop, stampIDs_length]
    omega
  · rw [hring', List.map_drop, stampIDs_map_id, idRange_drop]
    congr 1
    · simp
    · omega
  · intro lim hlim
    exact getPackets_unrestricted _ lim hlim

theorem C3_ring_retention_witness :
    (0 < 2 ∧ 2 < (List.replicate 4 dummyPacket).length) ∧
    (addSeq (newPacketStore 2 0) (List.replicate 4 dummyPacket)).packets.map (·.id) =
      idRange (((List.replicate 4 dummyPacket).length - 2 : Nat) : Int) 2 :=
  ⟨⟨by decide, by decide⟩,
   (C3_ring_retention 2 0 (List.replicate 4 dummyPacket) (by decide) (by decide)).2.1⟩

theorem claimPrivateRanges_isPrivate (a : IPAddr)
    (h : claimPrivateRanges a = true) : isPrivateIP a = true := by
  cases a with
  | v4 x y z w =>
    simp only [claimPrivateRanges, isPrivateIP, ipIsLoopback, ipIsLinkLocalUnicast,
      ipIsLinkLocalMulticast, inRange10, inRange172, inRange192, inRangeFC,
      inRangeFE80, Bool.or_eq_true, Bool.and_eq_true, beq_iff_eq] at h ⊢
    tauto
  | v6 bs =>
    simp only [claimPrivateRanges, isPrivateIP, ipIsLoopback, ipIsLinkLocalUnicast,
      ipIsLinkLocalMulticast, inRange10, inRange172, inRange192, inRangeFC,
      inRangeFE80, Bool.or_eq_true, Bool.and_eq_true, beq_iff_eq] at h ⊢
    tauto

/-- C7: for every IP in the ranges the specification lists (10/8,
172.16/12, 192.168/16, 127/8, fe80::/10, fc00::/7), `resolveIPInfo` never
launches the GeoIP HTTP task, and on first resolution it stores and
returns the `{hostname:"", country:"Local"}` entry. -/
theorem C7_private_ips_local (cache : String → Option IPInfo) (ip : String)
    (a : IPAddr) (hpriv : claimPrivateRanges a = true) :
    (resolveIPInfo cache ip (some a)).geoLaunched = false ∧
    (cache ip = none →
      (resolveIPInfo cache ip (some a)).cache ip = some ⟨"", "Local"⟩ ∧
      (resolveIPInfo cache ip (some a)).ret = ⟨"", "Local"⟩) := by
  have hp : isPrivateIP a = true := claimPrivateRanges_isPrivate a hpriv
  unfold resolveIPInfo
  cases hcache : cache ip with
  | some info =>
    exact ⟨rfl, fun h => Option.noConfusion h⟩
  | none =>
    refine ⟨?_, fun _ => ⟨?_, ?_⟩⟩
    · simp [hp]
    · simp [hp, cacheStore]
    · simp [hp]

theorem C7_private_ips_local_witness :
    claimPrivateRanges (IPAddr.v4 10 1 2 3) = true ∧
    emptyCache "10.1.2.3" = none ∧
    (resolveIPInfo emptyCache "10.1.2.3" (some (IPAddr.v4 10 1 2 3))).geoLaunched
      = false ∧
    (resolveIPInfo emptyCache "10.1.2.3" (some (IPAddr.v4 10 1 2 3))).cache "10.1.2.3"
      = some ⟨"", "Local"⟩ :=
  ⟨by decide, rfl,
   (C7_private_ips_local emptyCache "10.1.2.3" (IPAddr.v4 10 1 2 3) (by decide)).1,
   ((C7_private_ips_local emptyCache "10.1.2.3" (IPAddr.v4 10 1 2 3)
     (by decide)).2 rfl).1⟩

/-- C9: `Flush` always leaves the batch queue empty (drained before
writing and never re-queued), keeps the stored rows unchanged whenever
the transaction cannot begin or commit (the batch is lost whole), and
otherwise appends exactly the packets whose individual INSERT succeeded —
a failed INSERT is skipped while the rest of the batch is still
attempted, and no case surfaces an error to the caller. -/
theorem C9_flush_semantics : ∀ (s : DBState) (o : FlushOracle),
    (flush s o).batchQueue = [] ∧
    (o.beginErr = true ∨ o.commitErr = true → (flush s o).rows = s.rows) ∧
    (o.beginErr = false → o.commitErr = false → s.batchQueue ≠ [] →
      (flush s o).rows = s.rows ++ flushInserted o s.batchQueue) ∧
    (∀ i : Nat, i < s.batchQueue.length → o.insertErr i = false →
      o.beginErr = false → o.commitErr = false →
      s.batchQueue.getD i dummyPacket ∈ (flush s o).rows) := by
  intro s o
  by_cases hempty : s.batchQueue = []
  · rw [flush, if_pos hempty]
    refine ⟨hempty, fun _ => rfl, fun _ _ hne => absurd hempty hne, ?_⟩
    intro i hi
    rw [hempty] at hi
    exact absurd hi (by simp)
  · rw [flush, if_neg hempty]
    by_cases hb : o.beginErr
    · rw [if_pos hb]
      refine ⟨rfl, fun _ => rfl, fun hb' _ _ => absurd hb (by simp [hb']), ?_⟩
      intro i _ _ hb' _
      rw [hb'] at hb
      exact Bool.noConfusion hb
    · rw [if_neg hb]
      by_cases hcm : o.commitErr
      · rw [if_pos hcm]
        refine ⟨rfl, fun _ => rfl, fun _ hcm' _ => absurd hcm (by simp [hcm']), ?_⟩
        intro i _ _ _ hcm'
        rw [hcm'] at hcm
        exact Bool.noConfusion hcm
      · rw [if_neg hcm]
        refine ⟨rfl, ?_, fun _ _ _ => rfl, ?_⟩
        · intro hor
          rcases hor with h | h
          · exact absurd h (by simpa using hb)
          · exact absurd h (by simpa using hcm)
        · intro i hi hins _ _
          refine List.mem_append_right _ ?_
          unfold flushInserted
          refine List.mem_filterMap.mpr ⟨(i, s.batchQueue.getD i dummyPacket), ?_, ?_⟩
          · have hi2 : i < s.batchQueue.enum.length := by
              rw [List.enum_length]
              exact hi
            have h1 : s.batchQueue.getD i dummyPacket = s.batchQueue[i] := by
              rw [List.getD_eq_getElem?_getD, List.getElem?_eq_getElem hi]
              rfl
            have h2 : s.batchQueue.enum[i] = (i, s.batchQueue[i]) := by
              simp [List.getElem_enum]
            rw [h1, ← h2]
            exact List.getElem_mem hi2
          · simp [hins]

theorem C9_flush_semantics_witness :
    (flushOracle0.beginErr = false ∧ flushOracle0.commitErr = false ∧
     flushState0.batchQueue ≠ []) ∧
    (flush flushState0 flushOracle0).batchQueue = [] ∧
    (flush flushState0 flushOracle0).rows =
      flushState0.rows ++ flushInserted flushOracle0 flushState0.batchQueue :=
  ⟨⟨rfl, rfl, by decide⟩,
   (C9_flush_semantics flushState0 flushOracle0).1,
   (C9_flush_semantics flushState0 flushOracle0).2.2.1 rfl rfl (by decide)⟩

/-- C8: `QueryPackets` returns exactly the rows at positions
`[offset, offset+limit)` of the timestamp-descending ordering of the rows
matching the WHERE clause; the returned total is the count of all
matching rows and does not depend on limit or offset; the `/api/history`
handler defaults limit to 100 (clamping parsed values above 1000 to 1000)
and offset to 0. -/
theorem C8_query_pagination :
    ∀ (db : List Packet) (limit offset : Nat) (filter country : String)
      (excl : List String) (startT endT : Option Int),
    (queryPackets db limit offset filter country excl startT endT).1 =
      ((sortTsDesc (matchingRows db filter country excl startT endT)).drop
        offset).take limit ∧
    (queryPackets db limit offset filter country excl startT endT).2 =
      (matchingRows db filter country excl startT endT).length ∧
    (∀ l2 o2 : Nat, (queryPackets db l2 o2 filter country excl startT endT).2 =
      (queryPackets db limit offset filter country excl startT endT).2) ∧
    (∀ i : Nat,
      i < (queryPackets db limit offset filter country excl startT endT).1.length →
      (queryPackets db limit offset filter country excl startT endT).1.getD i
          dummyPacket =
        (sortTsDesc (matchingRows db filter country excl startT endT)).getD
          (offset + i) dummyPacket) ∧
    historyLimitParam none = 100 ∧
    (∀ v : Int, historyLimitParam (some v) = if 1000 < v then 1000 else v) ∧
    historyOffsetParam none = 0 ∧ (∀ v : Int, historyOffsetParam (some v) = v) := by
  intro db limit offset filter country excl startT endT
  refine ⟨rfl, rfl, fun l2 o2 => rfl, ?_, rfl, fun v => rfl, rfl, fun v => rfl⟩
  intro i hi
  have hlim : i < limit := by
    have h := hi
    rw [show (queryPackets db limit offset filter country excl startT endT).1 =
      ((sortTsDesc (matchingRows db filter country excl startT endT)).drop
        offset).take limit from rfl, List.length_take] at h
    omega
  rw [List.getD_eq_getElem?_getD, List.getD_eq_getElem?_getD]
  show (((sortTsDesc (matchingRows db filter country excl startT endT)).drop
    offset).take limit)[i]?.getD dummyPacket = _
  rw [List.getElem?_take, if_pos hlim, List.getElem?_drop]

theorem C8_query_pagination_witness :
    (0 < (queryPackets [pingPacket, dummyPacket] 1 1 "" "" [] none none).1.length) ∧
    (queryPackets [pingPacket, dummyPacket] 1 1 "" "" [] none none).1.getD 0
        dummyPacket =
      (sortTsDesc (matchingRows [pingPacket, dummyPacket] "" "" [] none none)).getD
        (1 + 0) dummyPacket :=
  ⟨by decide,
   (C8_query_pagination [pingPacket, dummyPacket] 1 1 "" "" [] none none).2.2.2.1 0
     (by decide)⟩

theorem applyEthernet_application (f : Frame) (p : Packet) :
    (applyEthernet f p).application = p.application := by
  unfold applyEthernet; cases f.eth <;> rfl

theorem applyEthernet_protocol (f : Frame) (p : Packet) :
    (applyEthernet f p).protocol = p.protocol := by
  unfold applyEthernet; cases f.eth <;> rfl

theorem applyEthernet_srcPort (f : Frame) (p : Packet) :
    (applyEthernet f p).srcPort = p.srcPort := by
  unfold applyEthernet; cases f.eth <;> rfl

theorem applyEthernet_dstPort (f : Frame) (p : Packet) :
    (applyEthernet f p).dstPort = p.dstPort := by
  unfold applyEthernet; cases f.eth <;> rfl

theorem applyIP_application (f : Frame) (p : Packet) :
    (applyIP f p).application = p.application := by
  unfold applyIP
  cases f.ipv4
  · cases f.ipv6 <;> rfl
  · rfl

theorem applyIP_srcPort (f : Frame) (p : Packet) :
    (applyIP f p).srcPort = p.srcPort := by
  unfold applyIP
  cases f.ipv4
  · cases f.ipv6 <;> rfl
  · rfl

theorem applyIP_dstPort (f : Frame) (p : Packet) :
    (applyIP f p).dstPort = p.dstPort := by
  unfold applyIP
  cases f.ipv4
  · cases f.ipv6 <;> rfl
  · rfl

theorem applyIP_protocol_v4 (f : Frame) (p : Packet) (l : IPv4Layer)
    (h : f.ipv4 = some l) : (applyIP f p).protocol = l.protocolName := by
  unfold applyIP; rw [h]

theorem applyIP_protocol_v6 (f : Frame) (p : Packet) (l : IPv6Layer)
    (h4 : f.ipv4 = none) (h6 : f.ipv6 = some l) :
    (applyIP f p).protocol = l.nextHeaderName := by
  unfold applyIP; rw [h4, h6]

theorem applyIP_none (f : Frame) (p : Packet) (h4 : f.ipv4 = none)
    (h6 : f.ipv6 = none) : applyIP f p = p := by
  unfold applyIP; rw [h4, h6]

theorem applyTCP_application (f : Frame) (p : Packet) :
    (applyTCP f p).application = p.application := by
  unfold applyTCP; cases f.tcp <;> rfl

theorem applyTCP_none (f : Frame) (p : Packet) (h : f.tcp = none) :
    applyTCP f p = p := by
  unfold applyTCP; rw [h]

theorem applyTCP_protocol_some (f : Frame) (p : Packet) (t : TCPLayer)
    (h : f.tcp = some t) : (applyTCP f p).protocol = "TCP" := by
  unfold applyTCP; rw [h]

theorem applyUDP_application (f : Frame) (p : Packet) :
    (applyUDP f p).application = p.application := by
  unfold applyUDP; cases f.udp <;> rfl

theorem applyUDP_none (f : Frame) (p : Packet) (h : f.udp = none) :
    applyUDP f p = p := by
  unfold applyUDP; rw [h]

theorem applyUDP_protocol_some (f : Frame) (p : Packet) (u : UDPLayer)
    (h : f.udp = some u) : (applyUDP f p).protocol = "UDP" := by
  unfold applyUDP; rw [h]

theorem applyICMP_application (f : Frame) (p : Packet) :
    (applyICMP f p).application = p.application := by
  unfold applyICMP; cases f.icmp <;> rfl

theorem applyICMP_none (f : Frame) (p : Packet) (h : f.icmp = none) :
    applyICMP f p = p := by
  unfold applyICMP; rw [h]

theorem applyICMP_protocol_some (f : Frame) (p : Packet) (i : ICMPLayer)
    (h : f.icmp = some i) : (applyICMP f p).protocol = "ICMP" := by
  unfold applyICMP; rw [h]

theorem applyARP_application (f : Frame) (p : Packet) :
    (applyARP f p).application = p.application := by
  unfold applyARP
  cases f.arp with
  | none => rfl
  | some a => dsimp only; split <;> rfl

theorem applyARP_srcPort (f : Frame) (p : Packet) :
    (applyARP f p).srcPort = p.srcPort := by
  unfold applyARP
  cases f.arp with
  | none => rfl
  | some a => dsimp only; split <;> rfl

theorem applyARP_dstPort (f : Frame) (p : Packet) :
    (applyARP f p).dstPort = p.dstPort := by
  unfold applyARP
  cases f.arp with
  | none => rfl
  | some a => dsimp only; split <;> rfl

theorem applyARP_none (f : Frame) (p : Packet) (h : f.arp = none) :
    applyARP f p = p := by
  unfold applyARP; rw [h]

theorem applyARP_protocol_some (f : Frame) (p : Packet) (a : ARPLayer)
    (h : f.arp = some a) : (applyARP f p).protocol = "ARP" := by
  unfold applyARP; rw [h]; dsimp only; split <;> rfl

theorem applyDNS_protocol (f : Frame) (p : Packet) :
    (applyDNS f p).protocol = p.protocol := by
  unfold applyDNS
  cases f.dns with
  | none => rfl
  | some d =>
    dsimp only
    split
    · rfl
    · split <;> rfl

theorem applyDNS_srcPort (f : Frame) (p : Packet) :
    (applyDNS f p).srcPort = p.srcPort := by
  unfold applyDNS
  cases f.dns with
  | none => rfl
  | some d =>
    dsimp only
    split
    · rfl
    · split <;> rfl

theorem applyDNS_dstPort (f : Frame) (p : Packet) :
    (applyDNS f p).dstPort = p.dstPort := by
  unfold applyDNS
  cases f.dns with
  | none => rfl
  | some d =>
    dsimp only
    split
    · rfl
    · split <;> rfl

theorem applyDNS_none (f : Frame) (p : Packet) (h : f.dns = none) :
    applyDNS f p = p := by
  unfold applyDNS; rw [h]

theorem applyAppDetect_application (p : Packet) :
    (applyAppDetect p).application =
      if p.application = "" then detectApplication p.srcPort p.dstPort
      else p.application := by
  unfold applyAppDetect
  split <;> simp [*]

theorem applyAppDetect_protocol (p : Packet) :
    (applyAppDetect p).protocol = p.protocol := by
  unfold applyAppDetect; split <;> rfl

theorem applyAppDetect_srcPort (p : Packet) :
    (applyAppDetect p).srcPort = p.srcPort := by
  unfold applyAppDetect; split <;> rfl

theorem applyAppDetect_dstPort (p : Packet) :
    (applyAppDetect p).dstPort = p.dstPort := by
  unfold applyAppDetect; split <;> rfl

theorem enrichSrc_application (cache : String → Option IPInfo) (p : Packet) :
    (enrichSrc cache p).application = p.application := by
  unfold enrichSrc
  split
  · rfl
  · dsimp only; split <;> rfl

theorem enrichSrc_protocol (cache : String → Option IPInfo) (p : Packet) :
    (enrichSrc cache p).protocol = p.protocol := by
  unfold enrichSrc
  split
  · rfl
  · dsimp only; split <;> rfl

theorem enrichSrc_srcPort (cache : String → Option IPInfo) (p : Packet) :
    (enrichSrc cache p).srcPort = p.srcPort := by
  unfold enrichSrc
  split
  · rfl
  · dsimp only; split <;> rfl

theorem enrichSrc_dstPort (cache : String → Option IPInfo) (p : Packet) :
    (enrichSrc cache p).dstPort = p.dstPort := by
  unfold enrichSrc
  split
  · rfl
  · dsimp only; split <;> rfl

theorem enrichDst_application (cache : String → Option IPInfo) (p : Packet) :
    (enrichDst cache p).application = p.application := by
  unfold enrichDst
  split
  · rfl
  · dsimp only; split <;> rfl

theorem enrichDst_protocol (cache : String → Option IPInfo) (p : Packet) :
    (enrichDst cache p).protocol = p.protocol := by
  unfold enrichDst
  split
  · rfl
  · dsimp only; split <;> rfl

theorem enrichDst_srcPort (cache : String → Option IPInfo) (p : Packet) :
    (enrichDst cache p).srcPort = p.srcPort := by
  unfold enrichDst
  split
  · rfl
  · dsimp only; split <;> rfl

theorem enrichDst_dstPort (cache : String → Option IPInfo) (p : Packet) :
    (enrichDst cache p).dstPort = p.dstPort := by
  unfold enrichDst
  split
  · rfl
  · dsimp only; split <;> rfl

theorem preDetect_application (f : Frame) (h : f.dns = none) :
    (preDetect f).application = "" := by
  unfold preDetect
  rw [applyDNS_none _ _ h, applyARP_application, applyICMP_application,
    applyUDP_application, applyTCP_application, applyIP_application,
    applyEthernet_application]
  rfl

theorem parsePacket_application_stage (cache : String → Option IPInfo) (f : Frame) :
    (parsePacket cache f).application = (applyAppDetect (preDetect f)).application := by
  unfold parsePacket
  rw [enrichDst_application, enrichSrc_application]

theorem parsePacket_protocol (cache : String → Option IPInfo) (f : Frame) :
    (parsePacket cache f).protocol = (preDetect f).protocol := by
  unfold parsePacket
  rw [enrichDst_protocol, enrichSrc_protocol, applyAppDetect_protocol]

theorem parsePacket_srcPort (cache : String → Option IPInfo) (f : Frame) :
    (parsePacket cache f).srcPort = (preDetect f).srcPort := by
  unfold parsePacket
  rw [enrichDst_srcPort, enrichSrc_srcPort, applyAppDetect_srcPort]

theorem parsePacket_dstPort (cache : String → Option IPInfo) (f : Frame) :
    (parsePacket cache f).dstPort = (preDetect f).dstPort := by
  unfold parsePacket
  rw [enrichDst_dstPort, enrichSrc_dstPort, applyAppDetect_dstPort]

theorem C1_counterexample :
    portTable 80 = some "HTTP" ∧ portTable 443 = some "HTTPS" ∧
    (parsePacket emptyCache bothPortsFrame).application = "HTTPS" ∧
    (parsePacket emptyCache bothPortsFrame).application ≠ "HTTP" := by
  refine ⟨by decide, by decide, by decide, by decide⟩

/-- C1 (amended): when the application field is still empty after
protocol-specific decoding (no DNS layer), the decoder looks the
destination port up first and then the source port, so when both ports
are in the well-known table the destination port's entry wins. -/
theorem C1_dst_port_wins (cache : String → Option IPInfo) (f : Frame)
    (h : f.dns = none) :
    (parsePacket cache f).application =
      match portTable (parsePacket cache f).dstPort with
      | some app => app
      | none =>
        match portTable (parsePacket cache f).srcPort with
        | some app => app
        | none => "" := by
  have happ : (parsePacket cache f).application =
      detectApplication (preDetect f).srcPort (preDetect f).dstPort := by
    rw [parsePacket_application_stage, applyAppDetect_application,
      preDetect_application f h]
    rfl
  rw [happ, parsePacket_srcPort, parsePacket_dstPort]
  rfl

theorem C1_dst_port_wins_witness :
    bothPortsFrame.dns = none ∧
    (parsePacket emptyCache bothPortsFrame).application =
      (match portTable (parsePacket emptyCache bothPortsFrame).dstPort with
       | some app => app
       | none =>
         match portTable (parsePacket emptyCache bothPortsFrame).srcPort with
         | some app => app
         | none => "") :=
  ⟨rfl, C1_dst_port_wins emptyCache bothPortsFrame rfl⟩

theorem C6_counterexample :
    (addPacket (newPacketStore 10 0) emptyProtoPacket 0).stats.protocolStats "" = 1 ∧
    (addPacket (newPacketStore 10 0) emptyProtoPacket 0).stats.protocolStats
        "Unknown" = 0 ∧
    ((addPacket (newPacketStore 10 0) emptyProtoPacket 0).packets.getD 0
        dummyPacket).protocol = "" := by
  refine ⟨by decide, by decide, by decide⟩

/-- C6 (amended): the "Unknown" default is applied by the decoder, not by
the store: `parsePacket` starts from protocol "Unknown" and only ever
overwrites it with non-empty protocol names, so a frame with no decodable
network/transport layer is recorded under "Unknown", while `AddPacket`
itself counts the packet's protocol string verbatim (an empty-protocol
packet fed directly to the store would create an empty-string bucket). -/
theorem C6_decoder_unknown_default (cache : String → Option IPInfo) (f : Frame)
    (h4 : ∀ l, f.ipv4 = some l → l.protocolName ≠ "")
    (h6 : ∀ l, f.ipv6 = some l → l.nextHeaderName ≠ "") :
    (parsePacket cache f).protocol ≠ "" ∧
    (f.ipv4 = none → f.ipv6 = none → f.tcp = none → f.udp = none → f.icmp = none →
      f.arp = none → (parsePacket cache f).protocol = "Unknown") ∧
    ∀ (s : PacketStore) (now : Int),
      (addPacket s (parsePacket cache f) now).stats.protocolStats
          ((parsePacket cache f).protocol) =
        s.stats.protocolStats ((parsePacket cache f).protocol) + 1 := by
  refine ⟨?_, ?_, ?_⟩
  · rw [parsePacket_protocol]
    unfold preDetect
    rw [applyDNS_protocol]
    cases harp : f.arp with
    | some a => rw [applyARP_protocol_some _ _ a harp]; decide
    | none =>
      rw [applyARP_none _ _ harp]
      cases hicmp : f.icmp with
      | some i => rw [applyICMP_protocol_some _ _ i hicmp]; decide
      | none =>
        rw [applyICMP_none _ _ hicmp]
        cases hudp : f.udp with
        | some u => rw [applyUDP_protocol_some _ _ u hudp]; decide
        | none =>
          rw [applyUDP_none _ _ hudp]
          cases htcp : f.tcp with
          | some t => rw [applyTCP_protocol_some _ _ t htcp]; decide
          | none =>
            rw [applyTCP_none _ _ htcp]
            cases h4c : f.ipv4 with
            | some l => rw [applyIP_protocol_v4 _ _ l h4c]; exact h4 l h4c
            | none =>
              cases h6c : f.ipv6 with
              | some l => rw [applyIP_protocol_v6 _ _ l h4c h6c]; exact h6 l h6c
              | none =>
                rw [applyIP_none _ _ h4c h6c, applyEthernet_protocol]
                show ("Unknown" : String) ≠ ""
                decide
  · intro hi4 hi6 htcp hudp hicmp harp
    rw [parsePacket_protocol]
    unfold preDetect
    rw [applyDNS_protocol, applyARP_none _ _ harp, applyICMP_none _ _ hicmp,
      applyUDP_none _ _ hudp, applyTCP_none _ _ htcp, applyIP_none _ _ hi4 hi6,
      applyEthernet_protocol]
    rfl
  · intro s now
    exact addPacket_protocolStats_self s (parsePacket cache f) now

theorem C6_decoder_unknown_default_witness :
    (parsePacket emptyCache bareFrame).protocol = "Unknown" ∧
    (addPacket (newPacketStore 10 0)
          (parsePacket emptyCache bareFrame) 0).stats.protocolStats
        ((parsePacket emptyCache bareFrame).protocol) =
      (newPacketStore 10 0).stats.protocolStats
        ((parsePacket emptyCache bareFrame).protocol) + 1 :=
  ⟨(C6_decoder_unknown_default emptyCache bareFrame
      (fun _ h => Option.noConfusion h) (fun _ h => Option.noConfusion h)).2.1
      rfl rfl rfl rfl rfl rfl,
   (C6_decoder_unknown_default emptyCache bareFrame
      (fun _ h => Option.noConfusion h) (fun _ h => Option.noConfusion h)).2.2
      (newPacketStore 10 0) 0⟩

theorem C2_counterexample :
    pingStore.stats.totalPackets = 5 ∧
    pingStore.stats.protocolStats "ICMP" = 5 ∧
    (getStats pingStore pingCache).2.countryStats "Local" = 420 ∧
    (getStats pingStore pingCache).2.countryStats "Local" ≠ 840 := by
  refine ⟨by decide, by decide, by decide, by decide⟩

/-- C2 (amended): after the five loopback pings the store's live
double-credit counter does hold `countryStats["Local"] == 840`, but the
`AggregateStats` returned by `GetStats` overwrites `countryStats` with
the talker-derived recomputation, which credits each frame's length once
to the source IP's country only, giving `countryStats["Local"] == 420`;
`totalPackets == 5` and `protocolStats["ICMP"] == 5` hold as claimed. -/
theorem C2_talker_derived_overwrite :
    pingStore.stats.totalPackets = 5 ∧
    pingStore.stats.protocolStats "ICMP" = 5 ∧
    pingStore.stats.countryStats "Local" = 840 ∧
    (getStats pingStore pingCache).2.countryStats "Local" = 420 := by
  refine ⟨by decide, by decide, by decide, by decide⟩

end PiTrack
